import Mathlib

/-!
Verification development for the DXF client coordination layer (`src/app.py`).

The Python source is shallowly embedded: pure helpers become Lean functions,
effectful Drive / RTDB calls are modelled by explicit outcome parameters
(an `Except` oracle per call, or an attempt function `Nat → Except _ _`
giving the store response to the n-th attempt), and the stateful upload
handlers become folds over per-item outcome records.  Machine-level
details (actual bytes, Streamlit rendering) are outside every claim and
are not modelled.
-/

-- -----------------------------
-- Config (src/app.py lines 42-48)
-- -----------------------------

def MAX_FILE_MB : Nat := 200

def MAX_FILE_BYTES : Nat := MAX_FILE_MB * 1024 * 1024

-- -----------------------------
-- Time / Job helpers (src/app.py lines 54-64)
-- -----------------------------

/-- A wall-clock reading of `datetime.now(SEOUL_TZ)`, at second resolution.
The fields are the local (Seoul) calendar fields used by
`strftime("%Y%m%d_%H%M%S")`. -/
structure DT where
  year : Nat
  month : Nat
  day : Nat
  hour : Nat
  minute : Nat
  second : Nat
deriving DecidableEq, Repr

/-- Ranges of a real calendar reading (what `datetime` guarantees). -/
def DT.Valid (t : DT) : Prop :=
  t.year < 10000 ∧ 1 ≤ t.month ∧ t.month ≤ 12 ∧ 1 ≤ t.day ∧ t.day ≤ 31 ∧
    t.hour ≤ 23 ∧ t.minute ≤ 59 ∧ t.second ≤ 59

instance (t : DT) : Decidable t.Valid := by
  unfold DT.Valid
  infer_instance

/-- Mixed-radix chronological key of a clock reading: two readings taken at
second resolution compare chronologically exactly as their keys compare. -/
def DT.key (t : DT) : Nat :=
  ((((t.year * 100 + t.month) * 100 + t.day) * 100 + t.hour) * 100 + t.minute) * 100 + t.second

/-- Zero-padded fixed-width decimal rendering, least significant digit last;
`padNum w n` is the final `w` digits of `n`, exactly what a `%0wd`-style
directive prints for `n < 10 ^ w`. -/
def padNum : Nat → Nat → List Char
  | 0, _ => []
  | w + 1, n => padNum w (n / 10) ++ [Nat.digitChar (n % 10)]

/-- The characters produced by `now.strftime("%Y%m%d_%H%M%S")` (line 59). -/
def strftime_compact (t : DT) : List Char :=
  padNum 4 t.year ++ (padNum 2 t.month ++ (padNum 2 t.day ++
    ('_' :: (padNum 2 t.hour ++ (padNum 2 t.minute ++ padNum 2 t.second)))))

/-- Python `c.isascii() and (c.isalnum() or c in ("-", "_", "."))` (line 62);
restricted to ASCII, `isalnum` is exactly ASCII-alphanumeric. -/
def allowedSlugChar (c : Char) : Bool :=
  c.toNat < 128 && (c.isAlphanum || c == '-' || c == '_' || c == '.')

/-- A lowercase hexadecimal digit, the alphabet of `uuid.uuid4().hex`. -/
def isLowerHexDigit (c : Char) : Bool :=
  c.isDigit || ('a' ≤ c && c ≤ 'f')

/-- Line 61: `base = (original_name or "file").replace(" ", "")` — the empty
display name falls back to "file", then every space is removed. -/
def jobSlugBase (n : String) : List Char :=
  (if n = "" then "file" else n).data.filter (fun c => c != ' ')

/-- Line 62: keep only the allowed characters. -/
def jobSlugRaw (n : String) : List Char :=
  (jobSlugBase n).filter allowedSlugChar

/-- Line 63: `safe = safe[:50] if safe else "file.dxf"`. -/
def jobSlug (n : String) : String :=
  if jobSlugRaw n = [] then "file.dxf" else String.mk ((jobSlugRaw n).take 50)

/-- `make_job_id` (lines 58-64).  `clock` is the `datetime.now(SEOUL_TZ)`
reading, `uuidHex` the 32 lowercase hex characters of `uuid.uuid4().hex`
(of which `[:8]` is used), `original_name` the display name. -/
def make_job_id (clock : DT) (uuidHex : String) (original_name : String) : String :=
  let ts := String.mk (strftime_compact clock)
  let short := String.mk (uuidHex.data.take 8)
  let safe := jobSlug original_name
  ts ++ "_" ++ short ++ "_" ++ safe

-- -----------------------------
-- _safe_name (src/app.py lines 317-326)
-- -----------------------------

/-- `Path(name).name`: the final path component (text after the last slash). -/
def lastPathComponent (l : List Char) : List Char :=
  (l.reverse.takeWhile (fun c => c ≠ '/')).reverse

/-- `_safe_name` (lines 317-326): strip directories, replace each space by an
underscore, keep only ASCII alphanumerics and dash, underscore, dot; fall
back to "file.dxf" when nothing is left. -/
def _safe_name (name : String) : String :=
  let base := lastPathComponent name.data
  let underscored := base.map (fun c => if c = ' ' then '_' else c)
  let safe := underscored.filter allowedSlugChar
  if safe = [] then "file.dxf" else String.mk safe

-- -----------------------------
-- _parse_iso_dt (src/app.py lines 339-348 and 361-369)
-- -----------------------------

/-- `_parse_iso_dt` (lines 339-348; an identical local copy lives at lines
361-369).  `fromiso` models `datetime.fromisoformat`: it is the library
parser, returning `none` where Python raises `ValueError` (the `except`
branch turns any raise into `None`); `some t` carries the parsed instant as
a count of seconds.  The function itself: empty (falsy) input gives `None`;
a trailing `Z` is replaced by the explicit offset `+00:00` before parsing. -/
def _parse_iso_dt (fromiso : String → Option Int) (s : String) : Option Int :=
  if s.data = [] then none
  else if s.data.getLast? = some 'Z' then
    fromiso (String.mk (s.data.dropLast ++ ("+00:00").data))
  else fromiso s

-- -----------------------------
-- Worker heartbeats (src/app.py lines 351-407)
-- -----------------------------

/-- A decoded heartbeat JSON document (what `download_json` yields). -/
structure HBDoc where
  worker_id : String
  status : String
  current_job_id : Option String
  updated_at : Option String
deriving DecidableEq, Repr

/-- One entry of the `files().list` response for the META folder; `doc = none`
models `download_json` raising for that file (caught by the per-file
`except: continue`). -/
structure HBFile where
  id : String
  name : String
  doc : Option HBDoc
deriving DecidableEq, Repr

/-- `hb.get("updated_at")` then `_parse_iso_dt`; a missing key gives `None`
which `_parse_iso_dt` maps to `None` (falsy test). -/
def parseUpdatedAt (fromiso : String → Option Int) : Option String → Option Int
  | none => none
  | some s => _parse_iso_dt fromiso s

/-- Loop body of `list_worker_heartbeats` (lines 384-403): state is the
`active` accumulator plus `last_seen`.  `last_seen` is raised to any parsed
time (strict `>` keeps the first of equal times); the record joins `active`
exactly when its age `now - t` is at most `ttl_sec`.  Records whose fetch or
parse fails leave the state untouched (`continue`). -/
def hbStep (fromiso : String → Option Int) (now ttl_sec : Int)
    (st : List (HBDoc × Int) × Option Int) (f : HBFile) :
    List (HBDoc × Int) × Option Int :=
  match f.doc with
  | none => st
  | some hb =>
    match parseUpdatedAt fromiso hb.updated_at with
    | none => st
    | some t =>
      let last_seen :=
        match st.2 with
        | none => some t
        | some prev => if prev < t then some t else some prev
      let active := if now - t ≤ ttl_sec then st.1 ++ [(hb, t)] else st.1
      (active, last_seen)

/-- The `last_seen` update of lines 395-396, as a fold step over parsed
times. -/
def hbMaxStep (acc : Option Int) (t : Int) : Option Int :=
  match acc with
  | none => some t
  | some prev => if prev < t then some t else some prev

/-- Sort order of line 406: most recent heartbeat first. -/
def hbDescRel (a b : HBDoc × Int) : Prop := b.2 ≤ a.2

instance : DecidableRel hbDescRel := fun a b => inferInstanceAs (Decidable (b.2 ≤ a.2))

instance : IsTotal (HBDoc × Int) hbDescRel := ⟨fun a b => le_total b.2 a.2⟩

instance : IsTrans (HBDoc × Int) hbDescRel := ⟨fun _ _ _ hab hbc => le_trans hbc hab⟩

/-- `list_worker_heartbeats` (lines 351-407).  The `files` argument is the
META-folder listing already narrowed by the Drive-side query
`name contains __worker__`; each parsed pair carries the record's
`_hb_time` annotation.  `List.insertionSort hbDescRel` models
`active.sort(key=_hb_time, reverse=True)`: Python sorts stably, and a
stable insertion sort under the same descending relation agrees with it. -/
def list_worker_heartbeats (fromiso : String → Option Int) (now ttl_sec : Int)
    (files : List HBFile) : List (HBDoc × Int) × Option Int :=
  let st := files.foldl (hbStep fromiso now ttl_sec) ([], none)
  (List.insertionSort hbDescRel st.1, st.2)

/-- The selection the loop makes for one listed file: its decoded document
paired with its parsed time, provided fetch and parse succeed and the age is
within the window. -/
def hbPick (fromiso : String → Option Int) (now ttl_sec : Int) (f : HBFile) :
    Option (HBDoc × Int) :=
  f.doc.bind fun hb =>
    (parseUpdatedAt fromiso hb.updated_at).bind fun t =>
      if now - t ≤ ttl_sec then some (hb, t) else none

/-- All successfully parsed heartbeat times of a listing, ignoring the ttl. -/
def hbTimes (fromiso : String → Option Int) (files : List HBFile) : List Int :=
  files.filterMap fun f => f.doc.bind fun hb => parseUpdatedAt fromiso hb.updated_at

-- -----------------------------
-- Store effect trace (for the frame property of the monitor)
-- -----------------------------

/-- The store primitives the client issues, as named by the spec's interface
section.  Reads: a folder listing, a file content download.  Writes: a file
creation, a JSON upsert, an RTDB job write. -/
inductive DriveOp
  | listFiles (folder : String) (query : String)
  | getFile (fileId : String)
  | createFile (folder : String) (name : String)
  | upsertJson (folder : String) (name : String)
  | setJob (jobId : String)
deriving DecidableEq, Repr

def DriveOp.isRead : DriveOp → Bool
  | .listFiles _ _ => true
  | .getFile _ => true
  | .createFile _ _ => false
  | .upsertJson _ _ => false
  | .setJob _ => false

/-- The mutable store as the claims see it: the Drive file tree (folder-name
pairs) and the set of RTDB job records. -/
structure StoreState where
  files : List (String × String)
  jobs : List String
deriving DecidableEq, Repr

/-- Effect of one primitive on the store: reads leave it unchanged, writes
extend it. -/
def applyOp (s : StoreState) : DriveOp → StoreState
  | .listFiles _ _ => s
  | .getFile _ => s
  | .createFile folder name => { s with files := (folder, name) :: s.files }
  | .upsertJson folder name => { s with files := (folder, name) :: s.files }
  | .setJob j => { s with jobs := j :: s.jobs }

/-- The exact sequence of store primitives `list_worker_heartbeats` issues
(lines 372-386): one `files().list` on the META folder, then one
`download_json` per listed file. -/
def list_worker_heartbeats_ops (meta_folder_id : String) (files : List HBFile) :
    List DriveOp :=
  DriveOp.listFiles meta_folder_id "trashed=false and name contains __worker__" ::
    files.map fun f => DriveOp.getFile f.id

-- -----------------------------
-- Heartbeat name filtering (src/app.py line 373)
-- -----------------------------

def workerTag : List Char := ("__worker__").data

/-- Substring containment, the semantics of the Drive query operator
`name contains` applied to the literal `__worker__`. -/
def hasWorkerTag : List Char → Bool
  | [] => false
  | c :: rest => List.isPrefixOf workerTag (c :: rest) || hasWorkerTag rest

/-- The META listing the query of line 373 returns: exactly the file names
containing `__worker__`. -/
def drive_worker_heartbeat_query (names : List String) : List String :=
  names.filter fun n => hasWorkerTag n.data

/-- Modelled from the spec: the worker process (its heartbeat writer is not
part of `src/app.py`) names its heartbeat document with a recognizable
`__worker__` infix keyed by its worker id, so the client can find it by
name-contains filtering. -/
def worker_heartbeat_doc_name (worker_id : String) : String :=
  "__worker__" ++ worker_id ++ ".json"

-- -----------------------------
-- RTDB job creation (src/app.py lines 141-153)
-- -----------------------------

/-- The RTDB job payload written by `create_job`.  The source dict carries no
"error" key at all; reading it yields `None`, modelled as an `error` field
fixed to `none`. -/
structure RTDBJob where
  job_id : String
  status : String
  original_filename : String
  inbox_file_id : String
  outbox_file_id : Option String
  created_at : String
  updated_at : String
  message : String
  progress : Int
  error : Option String
deriving DecidableEq, Repr

/-- `create_job` (lines 141-153): the payload it persists with `.set`.
`now_iso` stands for `now_seoul_iso()` (both timestamp fields are taken from
it). -/
def create_job_payload (job_id original_filename inbox_file_id now_iso : String) :
    RTDBJob :=
  { job_id := job_id
    status := "queued"
    original_filename := original_filename
    inbox_file_id := inbox_file_id
    outbox_file_id := none
    created_at := now_iso
    updated_at := now_iso
    message := ""
    progress := 0
    error := none }

-- -----------------------------
-- Batch upload handler (src/app.py lines 514-641)
-- -----------------------------

/-- The META document of one batch item (lines 568-580, then mutated at
lines 590-592 before the upsert). -/
structure MetaJob where
  batch_id : String
  job_id : String
  original_name : String
  inbox_name : String
  status : String
  created_at : String
  updated_at : String
  progress : Int
  message : String
  done_file : Option String
  error : Option String
  inbox_file_id : Option String
deriving DecidableEq, Repr

/-- The META payload as actually upserted for a successfully uploaded item:
the initial dict of lines 568-580 with `inbox_file_id`, `progress = 5` and a
fresh `updated_at` applied (lines 590-592). -/
def meta_payload_upserted (batch_id job_id safe_orig inbox_name created_at
    updated_at2 file_id : String) : MetaJob :=
  { batch_id := batch_id
    job_id := job_id
    original_name := safe_orig
    inbox_name := inbox_name
    status := "queued"
    created_at := created_at
    updated_at := updated_at2
    progress := 5
    message := "Uploaded to INBOX. Waiting for local worker."
    done_file := none
    error := none
    inbox_file_id := some file_id }

deriving instance DecidableEq for Except

/-- One file of a multi-file submission, with the outcomes of its two
effectful steps: `uploadResult` is what `upload_file_to_folder` returns for
it (the created file id, or the message of the exception it raises) and
`metaResult` is the outcome of `upsert_json_file` on its META document.
`clock` and `uuidHex` feed `make_job_id`. -/
structure UploadItem where
  name : String
  size : Nat
  clock : DT
  uuidHex : String
  uploadResult : Except String String
  metaResult : Except String Unit
deriving DecidableEq, Repr

/-- One manifest member (lines 598-605). -/
structure ManifestEntry where
  job_id : String
  meta_filename : String
  original_name : String
  inbox_name : String
  inbox_file_id : Option String
  status : String
deriving DecidableEq, Repr

/-- One entry of the per-item `errors` list (line 610). -/
structure BatchError where
  file : String
  error : String
deriving DecidableEq, Repr

/-- The loop body of lines 552-610 for a single item: sanitize the name, mint
the job id and the derived store names, then perform the upload and the META
upsert; the first raise anywhere inside the `try` lands the item in the
errors list, tagged with the display name and the error text. -/
def processItem (it : UploadItem) : Except BatchError ManifestEntry :=
  let safe_orig := _safe_name it.name
  let job_id := make_job_id it.clock it.uuidHex safe_orig
  let inbox_name := job_id ++ "__" ++ safe_orig
  let meta_filename := job_id ++ ".json"
  match it.uploadResult with
  | .error e => .error { file := it.name, error := e }
  | .ok fid =>
    match it.metaResult with
    | .error e => .error { file := it.name, error := e }
    | .ok _ =>
      .ok { job_id := job_id
            meta_filename := meta_filename
            original_name := safe_orig
            inbox_name := inbox_name
            inbox_file_id := some fid
            status := "queued" }

/-- The manifest entry an item contributes when all its steps succeed. -/
def processItemOk (it : UploadItem) : Option ManifestEntry :=
  (processItem it).toOption

/-- The per-item error an item contributes when one of its steps raises. -/
def processItemErr (it : UploadItem) : Option BatchError :=
  match processItem it with
  | .error e => some e
  | .ok _ => none

/-- The finalized manifest document (lines 534-543 and 617-625): the `errors`
key exists only when some item failed. -/
structure ManifestPayload where
  batch_id : String
  status : String
  created_at : String
  updated_at : String
  total : Nat
  items : List ManifestEntry
  message : String
  errors : Option (List BatchError)
deriving DecidableEq, Repr

/-- Outcome of the batch handler visible to the caller: the manifest written
to META under `manifest_filename`, plus the success count and per-item error
list shown in the status box and the warning panel. -/
structure BatchResult where
  manifest_filename : String
  manifest : ManifestPayload
  ok_count : Nat
  errors : List BatchError
deriving DecidableEq, Repr

/-- Loop state: manifest items so far, success count, errors so far. -/
def batchStep (st : List ManifestEntry × Nat × List BatchError) (it : UploadItem) :
    List ManifestEntry × Nat × List BatchError :=
  match processItem it with
  | .ok entry => (st.1 ++ [entry], st.2.1 + 1, st.2.2)
  | .error e => (st.1, st.2.1, st.2.2 ++ [e])

/-- The `Batch Upload to INBOX` handler (lines 528-641) after the button
press: run every item through the loop, then finalize and write the
manifest.  `final_updated` stands for the `now_seoul_iso()` of line 618. -/
def batch_upload (batch_id created_at final_updated : String)
    (items : List UploadItem) : BatchResult :=
  let st := items.foldl batchStep ([], 0, [])
  let manifest : ManifestPayload :=
    { batch_id := batch_id
      status := if st.2.2 = [] then "queued" else "error"
      created_at := created_at
      updated_at := final_updated
      total := items.length
      items := st.1
      message :=
        if st.2.2 = [] then "All files uploaded. Waiting for local worker."
        else "Uploaded with errors: " ++ toString st.2.2.length ++ " failed."
      errors := if st.2.2 = [] then none else some st.2.2 }
  { manifest_filename := batch_id ++ "__manifest.json"
    manifest := manifest
    ok_count := st.2.1
    errors := st.2.2 }

/-- What the upload section does with a selection (lines 514-528): either the
oversized-files error message (listing exactly the oversized ones) with no
further processing, or the batch handler. -/
inductive SubmissionOutcome
  | rejected (too_big : List UploadItem)
  | batched (r : BatchResult)
deriving DecidableEq, Repr

/-- Lines 519-528: `too_big = [u for u in uploaded_list if u.size > MAX_FILE_BYTES]`;
if any, the error panel is shown and the upload button never renders;
otherwise the batch handler runs on the whole selection. -/
def upload_section (batch_id created_at final_updated : String)
    (uploaded_list : List UploadItem) : SubmissionOutcome :=
  let too_big := uploaded_list.filter fun u => decide (u.size > MAX_FILE_BYTES)
  if too_big = [] then
    .batched (batch_upload batch_id created_at final_updated uploaded_list)
  else .rejected too_big

/-- JobRecords actually created by a submission outcome: none at all when the
selection was rejected, else the successfully processed items. -/
def jobsCreated : SubmissionOutcome → Nat
  | .rejected _ => 0
  | .batched r => r.ok_count

-- -----------------------------
-- Drive primitives and the spec's gateway (src/app.py lines 114-135)
-- -----------------------------

/-- Error classes of a Drive call, following the spec's taxonomy. -/
inductive GatewayErr
  | rateLimited
  | serverUnavailable
  | conflictErr
  | networkFailure
  | badRequest
  | unauthorized
deriving DecidableEq, Repr

/-- Retryable per the spec: rate limiting, transient server failure and
network-level failure; malformed or unauthorized requests are fatal. -/
def GatewayErr.isTransient : GatewayErr → Bool
  | rateLimited => true
  | serverUnavailable => true
  | conflictErr => true
  | networkFailure => true
  | badRequest => false
  | unauthorized => false

structure DriveFileMeta where
  id : String
  name : String
deriving DecidableEq, Repr

/-- `drive_upload_bytes` (lines 114-125): builds the media body and performs
exactly one `drive.files().create(...).execute()` call.  `attempt n` is the
outcome the Drive API would give the n-th attempt of this request; the
source consults only attempt 0 — it contains no retry loop. -/
def drive_upload_bytes (attempt : Nat → Except GatewayErr DriveFileMeta) :
    Except GatewayErr DriveFileMeta :=
  attempt 0

/-- `drive_download_bytes` (lines 128-135): the `while not done` loop over
`downloader.next_chunk()`.  `chunks` is the successive outcomes of
`next_chunk` until the download reports done; a raise anywhere propagates
unchanged, and on success the chunk bytes (abstracted as numbers)
concatenate. -/
def drive_download_bytes (chunks : List (Except GatewayErr (List Nat))) :
    Except GatewayErr (List Nat) :=
  match chunks with
  | [] => .ok []
  | c :: rest =>
    match c with
    | .error e => .error e
    | .ok b =>
      match drive_download_bytes rest with
      | .error e => .error e
      | .ok bs => .ok (b ++ bs)

/-- Modelled from the spec: the Resilient Store Gateway's retry loop, from
the words of section 4.1 — retry a transient failure while attempts remain,
surface a fatal error immediately, and after exhausting the bound surface
the last error unchanged.  `fuel` counts the retries still allowed. -/
def spec_gateway_go (attempt : Nat → Except GatewayErr α) (i : Nat) :
    Nat → Except GatewayErr α
  | 0 => attempt i
  | fuel + 1 =>
    match attempt i with
    | .ok v => .ok v
    | .error e => if e.isTransient then spec_gateway_go attempt (i + 1) fuel else .error e

/-- Modelled from the spec: `execute` with a configured attempt bound. -/
def spec_gateway_execute (maxAttempts : Nat)
    (attempt : Nat → Except GatewayErr DriveFileMeta) :
    Except GatewayErr DriveFileMeta :=
  spec_gateway_go attempt 0 (maxAttempts - 1)

-- -----------------------------
-- Concrete inputs for witnesses and counterexamples
-- -----------------------------

/-- A Drive request whose first attempt is rate-limited and whose every later
attempt succeeds. -/
def exTransientOnce : Nat → Except GatewayErr DriveFileMeta := fun i =>
  if i = 0 then .error .rateLimited else .ok ⟨"fid1", "a.dxf"⟩

def exClock1 : DT := ⟨2026, 10, 12, 8, 30, 0⟩

def exClock2 : DT := ⟨2026, 10, 12, 8, 30, 1⟩

def exHex : String := "0123456789abcdef0123456789abcdef"

/-- Three submitted files, the middle one oversized (300 MB). -/
def exOk1 : UploadItem :=
  ⟨"a.dxf", 1000, exClock1, exHex, .ok "fidA", .ok ()⟩

def exBig : UploadItem :=
  ⟨"big.dxf", 300 * 1024 * 1024, exClock1, exHex, .ok "fidB", .ok ()⟩

def exOk2 : UploadItem :=
  ⟨"c.dxf", 2000, exClock2, exHex, .ok "fidC", .ok ()⟩

def exItems3 : List UploadItem := [exOk1, exBig, exOk2]

/-- The manifest entry `processItem` yields for `exOk1`. -/
def exEntry1 : ManifestEntry :=
  { job_id := "20261012_083000_01234567_a.dxf"
    meta_filename := "20261012_083000_01234567_a.dxf.json"
    original_name := "a.dxf"
    inbox_name := "20261012_083000_01234567_a.dxf__a.dxf"
    inbox_file_id := some "fidA"
    status := "queued" }

/-- An item whose Drive upload raises. -/
def exFailItem : UploadItem :=
  ⟨"b.dxf", 500, exClock2, exHex, .error "quota exceeded", .ok ()⟩

/-- A parse oracle for the heartbeat example: three well-formed timestamps
mapping to instants 95, 75 and 55 (seconds). -/
def exFromiso : String → Option Int := fun s =>
  if s = "tA" then some 95
  else if s = "tB" then some 75
  else if s = "tC" then some 55
  else none

def exHbA : HBDoc := ⟨"w-a", "idle", none, some "tA"⟩

def exHbB : HBDoc := ⟨"w-b", "busy", some "job1", some "tB"⟩

def exHbC : HBDoc := ⟨"w-c", "idle", none, some "tC"⟩

def exHbBad : HBDoc := ⟨"w-d", "idle", none, some "garbage"⟩

/-- Listing order: age-25 worker first, then age-5, then age-45, then a
record with an unparsable timestamp and a record whose fetch raises.
With `now = 100` the ages are 25, 5, 45. -/
def exHbFiles : List HBFile :=
  [⟨"f1", "__worker__w-b.json", some exHbB⟩,
   ⟨"f2", "__worker__w-a.json", some exHbA⟩,
   ⟨"f3", "__worker__w-c.json", some exHbC⟩,
   ⟨"f4", "__worker__w-d.json", some exHbBad⟩,
   ⟨"f5", "__worker__w-e.json", none⟩]

-- -----------------------------
-- Lexicographic order helpers
-- -----------------------------

theorem padNum_length (w n : Nat) : (padNum w n).length = w := by
  induction w generalizing n with
  | zero => rfl
  | succ w ih => simp [padNum, ih]

theorem digitChar_mono {a b : Nat} (h : a < b) (hb : b < 10) :
    Nat.digitChar a < Nat.digitChar b := by
  have ha : a < 10 := lt_trans h hb
  interval_cases a <;> interval_cases b <;> decide

theorem lex_append_of_length_eq {α : Type} {r : α → α → Prop} :
    ∀ {a1 a2 : List α}, List.Lex r a1 a2 → a1.length = a2.length →
      ∀ s1 s2, List.Lex r (a1 ++ s1) (a2 ++ s2) := by
  intro a1 a2 h
  induction h with
  | nil => intro hl; simp at hl
  | rel hr => intro _ s1 s2; simp only [List.cons_append]; exact .rel hr
  | cons h ih =>
    intro hl s1 s2
    simp only [List.cons_append]
    exact .cons (ih (by simpa using hl) s1 s2)

theorem lex_append_same {α : Type} {r : α → α → Prop} (l : List α) {s1 s2 : List α}
    (h : List.Lex r s1 s2) : List.Lex r (l ++ s1) (l ++ s2) := by
  induction l with
  | nil => exact h
  | cons a l ih => simp only [List.cons_append]; exact .cons ih

theorem pad_lt : ∀ (w : Nat) {n1 n2 : Nat}, n1 < n2 → n2 < 10 ^ w →
    List.Lex (· < ·) (padNum w n1) (padNum w n2) := by
  intro w
  induction w with
  | zero => intro n1 n2 h hb; simp at hb; omega
  | succ w ih =>
    intro n1 n2 h hb
    rcases Nat.lt_trichotomy (n1 / 10) (n2 / 10) with hq | hq | hq
    · have hq2 : n2 / 10 < 10 ^ w := by
        have : (10 : Nat) ^ (w + 1) = 10 ^ w * 10 := pow_succ 10 w
        omega
      exact lex_append_of_length_eq (ih hq hq2)
        (by simp [padNum_length]) _ _
    · have hr : n1 % 10 < n2 % 10 := by
        have e1 := Nat.div_add_mod n1 10
        have e2 := Nat.div_add_mod n2 10
        omega
      have hr10 : n2 % 10 < 10 := Nat.mod_lt _ (by omega)
      show List.Lex (· < ·) (padNum w (n1 / 10) ++ [Nat.digitChar (n1 % 10)])
        (padNum w (n2 / 10) ++ [Nat.digitChar (n2 % 10)])
      rw [hq]
      exact lex_append_same _ (.rel (digitChar_mono hr hr10))
    · exfalso
      have e1 := Nat.div_add_mod n1 10
      have e2 := Nat.div_add_mod n2 10
      have m1 : n1 % 10 < 10 := Nat.mod_lt _ (by omega)
      omega

theorem strftime_length (t : DT) : (strftime_compact t).length = 15 := by
  simp [strftime_compact, padNum_length]

theorem strftime_lt {t1 t2 : DT} (h1 : t1.Valid) (h2 : t2.Valid)
    (hk : t1.key < t2.key) :
    List.Lex (· < ·) (strftime_compact t1) (strftime_compact t2) := by
  obtain ⟨hy1, hmo1l, hmo1, hd1l, hd1, hh1, hmi1, hs1⟩ := h1
  obtain ⟨hy2, hmo2l, hmo2, hd2l, hd2, hh2, hmi2, hs2⟩ := h2
  simp only [DT.key] at hk
  have p4 : (10 : Nat) ^ 4 = 10000 := by norm_num
  have p2 : (10 : Nat) ^ 2 = 100 := by norm_num
  unfold strftime_compact
  rcases Nat.lt_trichotomy t1.year t2.year with hy | hy | hy
  · exact lex_append_of_length_eq (pad_lt 4 hy (by omega)) (by simp [padNum_length]) _ _
  · rw [hy]
    apply lex_append_same
    rcases Nat.lt_trichotomy t1.month t2.month with hm | hm | hm
    · exact lex_append_of_length_eq (pad_lt 2 hm (by omega)) (by simp [padNum_length]) _ _
    · rw [hm]
      apply lex_append_same
      rcases Nat.lt_trichotomy t1.day t2.day with hd | hd | hd
      · exact lex_append_of_length_eq (pad_lt 2 hd (by omega)) (by simp [padNum_length]) _ _
      · rw [hd]
        apply lex_append_same
        apply List.Lex.cons
        rcases Nat.lt_trichotomy t1.hour t2.hour with hh | hh | hh
        · exact lex_append_of_length_eq (pad_lt 2 hh (by omega)) (by simp [padNum_length]) _ _
        · rw [hh]
          apply lex_append_same
          rcases Nat.lt_trichotomy t1.minute t2.minute with hmi | hmi | hmi
          · exact lex_append_of_length_eq (pad_lt 2 hmi (by omega)) (by simp [padNum_length]) _ _
          · rw [hmi]
            apply lex_append_same
            rcases Nat.lt_trichotomy t1.second t2.second with hs | hs | hs
            · exact pad_lt 2 hs (by omega)
            · exfalso; omega
            · exfalso; omega
          · exfalso; omega
        · exfalso; omega
      · exfalso; omega
    · exfalso; omega
  · exfalso; omega

theorem make_job_id_data (clock : DT) (uuidHex original_name : String) :
    (make_job_id clock uuidHex original_name).data =
      strftime_compact clock ++
        ('_' :: (uuidHex.data.take 8 ++ ('_' :: (jobSlug original_name).data))) := by
  show (String.mk (strftime_compact clock) ++ "_" ++ String.mk (uuidHex.data.take 8) ++
      "_" ++ jobSlug original_name).data = _
  simp [String.data_append]

-- -----------------------------
-- Slug facts
-- -----------------------------

theorem jobSlug_chars (n : String) : ∀ c ∈ (jobSlug n).data, allowedSlugChar c := by
  intro c hc
  unfold jobSlug at hc
  split at hc
  · rw [show ("file.dxf" : String).data = ['f', 'i', 'l', 'e', '.', 'd', 'x', 'f'] from rfl] at hc
    fin_cases hc <;> decide
  · have hmem : c ∈ jobSlugRaw n := List.take_subset _ _ hc
    exact (List.mem_filter.mp hmem).2

theorem jobSlug_length (n : String) : (jobSlug n).length ≤ 50 := by
  unfold jobSlug
  split
  · decide
  · show ((jobSlugRaw n).take 50).length ≤ 50
    exact List.length_take_le _ _

-- -----------------------------
-- Claim theorems: identity generator
-- -----------------------------

/-- C3: for any two `make_job_id` calls whose (second-resolution) clock
readings are at least one clock tick apart — i.e. the earlier call's
chronological key is strictly smaller — the id returned by the earlier call
sorts lexically before the id of the later call, for all valid display names
and any random suffixes. -/
theorem C3_make_job_id_time_ordered (t1 t2 : DT) (u1 u2 n1 n2 : String)
    (h1 : t1.Valid) (h2 : t2.Valid) (hlt : t1.key < t2.key) :
    make_job_id t1 u1 n1 < make_job_id t2 u2 n2 := by
  have hlex : List.Lex (· < ·) (make_job_id t1 u1 n1).data
      (make_job_id t2 u2 n2).data := by
    rw [make_job_id_data, make_job_id_data]
    exact lex_append_of_length_eq (strftime_lt h1 h2 hlt)
      (by simp [strftime_length]) _ _
  rw [String.lt_iff_toList_lt]
  exact hlex

/-- C3 witness: two concrete calls one second apart, with suffixes and
display names chosen against the timestamp order. -/
theorem C3_witness :
    exClock1.Valid ∧ exClock2.Valid ∧ exClock1.key < exClock2.key ∧
      make_job_id exClock1 "ffffffffffffffffffffffffffffffff" "z.dxf" <
        make_job_id exClock2 "00000000000000000000000000000000" "a.dxf" :=
  ⟨by decide, by decide, by decide,
    C3_make_job_id_time_ordered exClock1 exClock2
      "ffffffffffffffffffffffffffffffff" "00000000000000000000000000000000"
      "z.dxf" "a.dxf" (by decide) (by decide) (by decide)⟩

/-- C4: `make_job_id` is the concatenation of the second-resolution timestamp
of the (fixed-timezone, Seoul) clock reading, an 8-character — hence at
least 6 — lowercase-hex random suffix taken from `uuid4().hex`, and a
sanitized slug of the display name whose characters are all ASCII
alphanumerics or dash, underscore, dot, whose length is capped at 50
(within the 40-60 band), and which falls back to the fixed placeholder
"file.dxf" when sanitization leaves nothing. -/
theorem C4_make_job_id_shape (t : DT) (u n : String)
    (hlen : u.data.length = 32) (hhex : ∀ c ∈ u.data, isLowerHexDigit c) :
    make_job_id t u n =
      String.mk (strftime_compact t) ++ "_" ++ String.mk (u.data.take 8) ++ "_" ++
        jobSlug n ∧
    (u.data.take 8).length = 8 ∧
    (∀ c ∈ u.data.take 8, isLowerHexDigit c) ∧
    (∀ c ∈ (jobSlug n).data, allowedSlugChar c) ∧
    (jobSlug n).length ≤ 50 ∧
    (jobSlugRaw n = [] → jobSlug n = "file.dxf") := by
  refine ⟨rfl, ?_, ?_, jobSlug_chars n, jobSlug_length n, ?_⟩
  · rw [List.length_take, hlen]
    omega
  · intro c hc
    exact hhex c (List.take_subset _ _ hc)
  · intro h
    unfold jobSlug
    rw [if_pos h]

/-- C4 witness: a concrete clock reading, a concrete uuid hex string and a
display name needing every sanitization step. -/
theorem C4_witness :
    exHex.data.length = 32 ∧ (∀ c ∈ exHex.data, isLowerHexDigit c) ∧
      (make_job_id exClock1 exHex "My Plan (v2).dxf" =
        String.mk (strftime_compact exClock1) ++ "_" ++
          String.mk (exHex.data.take 8) ++ "_" ++ jobSlug "My Plan (v2).dxf" ∧
      (exHex.data.take 8).length = 8 ∧
      (∀ c ∈ exHex.data.take 8, isLowerHexDigit c) ∧
      (∀ c ∈ (jobSlug "My Plan (v2).dxf").data, allowedSlugChar c) ∧
      (jobSlug "My Plan (v2).dxf").length ≤ 50 ∧
      (jobSlugRaw "My Plan (v2).dxf" = [] → jobSlug "My Plan (v2).dxf" = "file.dxf")) :=
  ⟨by decide, by decide,
    C4_make_job_id_shape exClock1 exHex "My Plan (v2).dxf" (by decide) (by decide)⟩

-- -----------------------------
-- Claim theorem: ISO datetime parsing
-- -----------------------------

/-- C10: `_parse_iso_dt` is a total function into `Option` (every raise of
the library parser is modelled by — and caught into — `none`): it returns
`none` on the empty string, behaves as the bare library parser on nonempty
input without a trailing Z — in particular returning `none` whenever the
parser cannot parse it — and on input ending in Z parses the string with
the Z replaced by the UTC offset "+00:00". -/
theorem C10_parse_iso_dt_total (fromiso : String → Option Int) (s : String) :
    (_parse_iso_dt fromiso "" = none) ∧
    (s.data.getLast? = some 'Z' →
      _parse_iso_dt fromiso s =
        fromiso (String.mk (s.data.dropLast ++ ("+00:00").data))) ∧
    (s ≠ "" → s.data.getLast? ≠ some 'Z' → _parse_iso_dt fromiso s = fromiso s) := by
  refine ⟨rfl, ?_, ?_⟩
  · intro hz
    have hne : s.data ≠ [] := by
      intro he
      rw [he] at hz
      simp at hz
    unfold _parse_iso_dt
    rw [if_neg hne, if_pos hz]
  · intro hne hz
    have hne' : s.data ≠ [] := by
      intro he
      apply hne
      cases s
      simp_all
    unfold _parse_iso_dt
    rw [if_neg hne', if_neg hz]

/-- C10 witness: the empty string, a Z-suffixed timestamp and a plain
unparsable string, under a concrete parser oracle. -/
theorem C10_witness :
    (_parse_iso_dt exFromiso "" = none) ∧
    (_parse_iso_dt exFromiso "2026-01-02T03:04:05Z" =
      exFromiso (String.mk (("2026-01-02T03:04:05Z" : String).data.dropLast ++
        ("+00:00").data))) ∧
    (_parse_iso_dt exFromiso "garbage" = exFromiso "garbage") :=
  ⟨(C10_parse_iso_dt_total exFromiso "x").1,
    (C10_parse_iso_dt_total exFromiso "2026-01-02T03:04:05Z").2.1 (by decide),
    (C10_parse_iso_dt_total exFromiso "garbage").2.2 (by decide) (by decide)⟩


-- -----------------------------
-- Heartbeat loop characterization
-- -----------------------------

theorem hbFold (fromiso : String → Option Int) (now ttl_sec : Int) :
    ∀ (files : List HBFile) (a : List (HBDoc × Int)) (ls : Option Int),
      files.foldl (hbStep fromiso now ttl_sec) (a, ls) =
        (a ++ files.filterMap (hbPick fromiso now ttl_sec),
          (hbTimes fromiso files).foldl hbMaxStep ls) := by
  intro files
  induction files with
  | nil => intro a ls; simp [hbTimes]
  | cons f fs ih =>
    intro a ls
    rw [List.foldl_cons]
    cases hd : f.doc with
    | none =>
      have h1 : hbStep fromiso now ttl_sec (a, ls) f = (a, ls) := by
        simp [hbStep, hd]
      have h2 : hbPick fromiso now ttl_sec f = none := by
        simp [hbPick, hd]
      have h3 : hbTimes fromiso (f :: fs) = hbTimes fromiso fs := by
        simp [hbTimes, List.filterMap_cons, hd]
      rw [h1, ih, List.filterMap_cons, h2, h3]
    | some hb =>
      cases hp : parseUpdatedAt fromiso hb.updated_at with
      | none =>
        have h1 : hbStep fromiso now ttl_sec (a, ls) f = (a, ls) := by
          simp [hbStep, hd, hp]
        have h2 : hbPick fromiso now ttl_sec f = none := by
          simp [hbPick, hd, hp]
        have h3 : hbTimes fromiso (f :: fs) = hbTimes fromiso fs := by
          simp [hbTimes, List.filterMap_cons, hd, hp]
        rw [h1, ih, List.filterMap_cons, h2, h3]
      | some t =>
        have h3 : hbTimes fromiso (f :: fs) = t :: hbTimes fromiso fs := by
          simp [hbTimes, List.filterMap_cons, hd, hp]
        have hstep : hbStep fromiso now ttl_sec (a, ls) f =
            ((if now - t ≤ ttl_sec then a ++ [(hb, t)] else a), hbMaxStep ls t) := by
          simp only [hbStep, hd, hp, hbMaxStep]
        have hpick : hbPick fromiso now ttl_sec f =
            (if now - t ≤ ttl_sec then some (hb, t) else none) := by
          simp only [hbPick, hd, hp, Option.some_bind]
        by_cases hc : now - t ≤ ttl_sec
        · rw [hstep, if_pos hc, ih, List.filterMap_cons, hpick, if_pos hc, h3,
            List.foldl_cons]
          simp
        · rw [hstep, if_neg hc, ih, List.filterMap_cons, hpick, if_neg hc, h3,
            List.foldl_cons]

theorem foldl_hbMaxStep_some : ∀ (l : List Int) (a : Int),
    l.foldl hbMaxStep (some a) = some (l.foldl max a) := by
  intro l
  induction l with
  | nil => intro a; rfl
  | cons t ts ih =>
    intro a
    rw [List.foldl_cons, List.foldl_cons]
    have h : hbMaxStep (some a) t = some (max a t) := by
      show (if a < t then some t else some a) = some (max a t)
      rcases lt_or_ge a t with h | h
      · rw [if_pos h, max_eq_right h.le]
      · rw [if_neg (not_lt.mpr h), max_eq_left h]
    rw [h, ih]

theorem foldl_hbMaxStep_max? (l : List Int) :
    l.foldl hbMaxStep none = l.max? := by
  cases l with
  | nil => rfl
  | cons a as =>
    rw [List.foldl_cons]
    show as.foldl hbMaxStep (some a) = _
    rw [foldl_hbMaxStep_some]
    rfl

-- -----------------------------
-- Claim theorem: liveness monitor output
-- -----------------------------

/-- C5: for every parser oracle, clock, ttl and heartbeat listing, the
monitor returns exactly (as a multiset) the heartbeats whose parsed age is
at most the ttl, sorted most-recent-first; its `last_seen` is the maximum of
all parsed heartbeat times, ttl ignored; and records whose fetch or parse
fails are skipped (they contribute neither an active entry nor a time).  In
particular, for heartbeats at ages 25, 5 and 45 with ttl 30 (plus an
unparsable record and one whose fetch raises), it returns exactly the age-5
and age-25 heartbeats in that order, and `last_seen` is the age-5 time. -/
theorem C5_active_workers_within_ttl :
    (∀ (fromiso : String → Option Int) (now ttl_sec : Int) (files : List HBFile),
      (list_worker_heartbeats fromiso now ttl_sec files).1.Perm
        (files.filterMap (hbPick fromiso now ttl_sec)) ∧
      List.Pairwise hbDescRel (list_worker_heartbeats fromiso now ttl_sec files).1 ∧
      (list_worker_heartbeats fromiso now ttl_sec files).2 =
        (hbTimes fromiso files).max?) ∧
    list_worker_heartbeats exFromiso 100 30 exHbFiles =
      ([(exHbA, 95), (exHbB, 75)], some 95) := by
  constructor
  · intro fromiso now ttl_sec files
    have hf := hbFold fromiso now ttl_sec files [] none
    refine ⟨?_, ?_, ?_⟩
    · show (List.insertionSort hbDescRel
        ((files.foldl (hbStep fromiso now ttl_sec) ([], none)).1)).Perm _
      rw [hf]
      have hp := List.perm_insertionSort hbDescRel
        ([] ++ files.filterMap (hbPick fromiso now ttl_sec))
      simpa using hp
    · exact List.sorted_insertionSort hbDescRel _
    · show (files.foldl (hbStep fromiso now ttl_sec) ([], none)).2 = _
      rw [hf]
      exact foldl_hbMaxStep_max? _
  · decide

-- -----------------------------
-- Claim theorem: monitor frame property
-- -----------------------------

theorem getFile_fold_id : ∀ (l : List HBFile) (s : StoreState),
    (l.map fun f => DriveOp.getFile f.id).foldl applyOp s = s := by
  intro l
  induction l with
  | nil => intro s; rfl
  | cons f fs ih => intro s; rw [List.map_cons, List.foldl_cons]; exact ih s

/-- C9: the liveness monitor is purely observational: the store primitives it
issues are exactly one listing plus one download per listed file, all of
them reads, and replaying its whole effect trace over any store state —
including every job record and batch manifest — leaves the state unchanged. -/
theorem C9_monitor_is_read_only (meta_folder_id : String) (files : List HBFile)
    (s : StoreState) :
    (list_worker_heartbeats_ops meta_folder_id files).foldl applyOp s = s ∧
    ∀ op ∈ list_worker_heartbeats_ops meta_folder_id files, op.isRead := by
  constructor
  · show ((files.map fun f => DriveOp.getFile f.id).foldl applyOp
      (applyOp s (DriveOp.listFiles meta_folder_id _))) = s
    exact getFile_fold_id files s
  · intro op hop
    rcases List.mem_cons.mp hop with h | h
    · rw [h]; rfl
    · obtain ⟨f, _, rfl⟩ := List.mem_map.mp h
      rfl

-- -----------------------------
-- Claim theorem: records persisted at creation
-- -----------------------------

/-- C7: every job record this layer persists at creation — the RTDB payload
of `create_job` and the META document upserted for a batch item — is in
state "queued" with no error and no output reference (`outbox_file_id`
resp. `done_file`), so the output-present-iff-done and error-present-iff-
error invariants hold for every record written by a submission. -/
theorem C7_created_records_queued_no_error_no_output
    (job_id orig inbox now_iso bi jid safe inboxn ca ua fid : String) :
    (create_job_payload job_id orig inbox now_iso).status = "queued" ∧
    (create_job_payload job_id orig inbox now_iso).outbox_file_id = none ∧
    (create_job_payload job_id orig inbox now_iso).error = none ∧
    ((create_job_payload job_id orig inbox now_iso).outbox_file_id.isSome ↔
      (create_job_payload job_id orig inbox now_iso).status = "done") ∧
    ((create_job_payload job_id orig inbox now_iso).error.isSome ↔
      (create_job_payload job_id orig inbox now_iso).status = "error") ∧
    (meta_payload_upserted bi jid safe inboxn ca ua fid).status = "queued" ∧
    (meta_payload_upserted bi jid safe inboxn ca ua fid).done_file = none ∧
    (meta_payload_upserted bi jid safe inboxn ca ua fid).error = none ∧
    ((meta_payload_upserted bi jid safe inboxn ca ua fid).done_file.isSome ↔
      (meta_payload_upserted bi jid safe inboxn ca ua fid).status = "done") ∧
    ((meta_payload_upserted bi jid safe inboxn ca ua fid).error.isSome ↔
      (meta_payload_upserted bi jid safe inboxn ca ua fid).status = "error") := by
  refine ⟨rfl, rfl, rfl, ?_, ?_, rfl, rfl, rfl, ?_, ?_⟩ <;>
    simp [create_job_payload, meta_payload_upserted]

-- -----------------------------
-- Batch loop characterization
-- -----------------------------

theorem batchFold : ∀ (items : List UploadItem) (a : List ManifestEntry)
    (n : Nat) (e : List BatchError),
    items.foldl batchStep (a, n, e) =
      (a ++ items.filterMap processItemOk,
        n + (items.filterMap processItemOk).length,
        e ++ items.filterMap processItemErr) := by
  intro items
  induction items with
  | nil => intro a n e; simp
  | cons it its ih =>
    intro a n e
    rw [List.foldl_cons]
    cases hp : processItem it with
    | ok entry =>
      have h1 : batchStep (a, n, e) it = (a ++ [entry], n + 1, e) := by
        simp only [batchStep, hp]
      have h2 : processItemOk it = some entry := by
        simp [processItemOk, hp, Except.toOption]
      have h3 : processItemErr it = none := by
        simp [processItemErr, hp]
      rw [h1, ih, List.filterMap_cons, List.filterMap_cons, h2, h3]
      refine congrArg₂ _ ?_ (congrArg₂ _ ?_ rfl)
      · simp
      · simp only [List.length_cons]
        omega
    | error er =>
      have h1 : batchStep (a, n, e) it = (a, n, e ++ [er]) := by
        simp only [batchStep, hp]
      have h2 : processItemOk it = none := by
        simp [processItemOk, hp, Except.toOption]
      have h3 : processItemErr it = some er := by
        simp [processItemErr, hp]
      rw [h1, ih, List.filterMap_cons, List.filterMap_cons, h2, h3]
      simp

theorem processItem_partition_length : ∀ (items : List UploadItem),
    (items.filterMap processItemOk).length +
      (items.filterMap processItemErr).length = items.length := by
  intro items
  induction items with
  | nil => rfl
  | cons it its ih =>
    rw [List.filterMap_cons, List.filterMap_cons]
    cases hp : processItem it with
    | ok entry =>
      have h2 : processItemOk it = some entry := by
        simp [processItemOk, hp, Except.toOption]
      have h3 : processItemErr it = none := by
        simp [processItemErr, hp]
      rw [h2, h3]
      simp only [List.length_cons]
      omega
    | error er =>
      have h2 : processItemOk it = none := by
        simp [processItemOk, hp, Except.toOption]
      have h3 : processItemErr it = some er := by
        simp [processItemErr, hp]
      rw [h2, h3]
      simp only [List.length_cons, List.length]
      omega

-- -----------------------------
-- Claim theorem: batch partial success
-- -----------------------------

/-- C6: a failing item is recorded (with its display name and error) in the
batch's errors list rather than aborting the batch: the loop covers every
item, the successes (in order) are exactly the manifest members, the
finalized manifest — which is written in the error case as well as the
clean case — carries the error list exactly when nonempty, every item is
accounted as either a success or a per-item error, and the partial-success
outcome (`ok_count` plus the itemized errors) is the caller-visible result. -/
theorem C6_batch_errors_do_not_abort (bi ca fu : String)
    (items : List UploadItem) :
    (batch_upload bi ca fu items).manifest.items = items.filterMap processItemOk ∧
    (batch_upload bi ca fu items).errors = items.filterMap processItemErr ∧
    (batch_upload bi ca fu items).ok_count = (items.filterMap processItemOk).length ∧
    (batch_upload bi ca fu items).ok_count +
      (batch_upload bi ca fu items).errors.length = items.length ∧
    (batch_upload bi ca fu items).manifest.status =
      (if (batch_upload bi ca fu items).errors = [] then "queued" else "error") ∧
    (batch_upload bi ca fu items).manifest.errors =
      (if (batch_upload bi ca fu items).errors = []
        then none else some (batch_upload bi ca fu items).errors) ∧
    (batch_upload bi ca fu items).manifest.total = items.length := by
  have hf := batchFold items [] 0 []
  simp only [batch_upload]
  rw [hf]
  simp [processItem_partition_length]

-- -----------------------------
-- Claim C2: oversized artifacts
-- -----------------------------

/-- C2 counterexample: a submission of three files with one oversized
(300 MB) is rejected wholesale by the upload section — the two valid files
produce no JobRecords at all (the claim requires two), and no batch is
created. -/
theorem C2_counterexample :
    upload_section "batch1" "t0" "t1" exItems3 = .rejected [exBig] ∧
    jobsCreated (upload_section "batch1" "t0" "t1" exItems3) = 0 ∧
    jobsCreated (upload_section "batch1" "t0" "t1" exItems3) ≠ 2 := by
  decide

/-- C2 (amended): when any artifact of a multi-file submission exceeds the
configured 200 MB limit, the whole submission is blocked: the error panel
lists exactly the oversized artifacts, the upload button is never offered,
and no upload, JobRecord or batch creation happens for any file — valid
files included.  (Per-item error handling without blocking the rest applies
only to failures inside the batch loop, which runs only when every file is
within the limit.) -/
theorem C2_oversized_blocks_whole_submission (bi ca fu : String)
    (items : List UploadItem)
    (h : items.filter (fun u => decide (u.size > MAX_FILE_BYTES)) ≠ []) :
    upload_section bi ca fu items =
      .rejected (items.filter (fun u => decide (u.size > MAX_FILE_BYTES))) ∧
    jobsCreated (upload_section bi ca fu items) = 0 := by
  simp only [upload_section]
  rw [if_neg h]
  exact ⟨rfl, rfl⟩

/-- C2 witness: the amended statement at the concrete three-file submission
with one oversized item. -/
theorem C2_witness :
    exItems3.filter (fun u => decide (u.size > MAX_FILE_BYTES)) ≠ [] ∧
    upload_section "b" "t0" "t1" exItems3 =
      .rejected (exItems3.filter (fun u => decide (u.size > MAX_FILE_BYTES))) ∧
    jobsCreated (upload_section "b" "t0" "t1" exItems3) = 0 :=
  ⟨by decide,
    (C2_oversized_blocks_whole_submission "b" "t0" "t1" exItems3 (by decide)).1,
    (C2_oversized_blocks_whole_submission "b" "t0" "t1" exItems3 (by decide)).2⟩

-- -----------------------------
-- Claim C1: no retrying gateway exists
-- -----------------------------

/-- C1 counterexample: a rate-limited first attempt — transient by the
spec's own classification — is surfaced immediately by the source's upload
primitive, while the spec's gateway (bound 6) would have retried and
succeeded: store calls are not routed through any retrying gateway. -/
theorem C1_counterexample :
    drive_upload_bytes exTransientOnce = .error .rateLimited ∧
    GatewayErr.isTransient .rateLimited = true ∧
    spec_gateway_execute 6 exTransientOnce = .ok ⟨"fid1", "a.dxf"⟩ ∧
    drive_upload_bytes exTransientOnce ≠ spec_gateway_execute 6 exTransientOnce := by
  decide

/-- C1 (amended): the source has no resilient gateway at all: every store
primitive performs exactly one attempt — the degenerate gateway with
attempt bound 1 — and surfaces the error of that single attempt unchanged,
transient or fatal alike; the download loop likewise propagates the first
raise of `next_chunk` unchanged, and callers (the upload and download UI
handlers) receive the unretried error. -/
theorem C1_single_attempt_no_retry :
    (∀ attempt : Nat → Except GatewayErr DriveFileMeta,
      drive_upload_bytes attempt = attempt 0 ∧
      drive_upload_bytes attempt = spec_gateway_execute 1 attempt) ∧
    (∀ (e : GatewayErr) (rest : List (Except GatewayErr (List Nat))),
      drive_download_bytes (.error e :: rest) = .error e) ∧
    (∀ (b : List Nat) (rest : List (Except GatewayErr (List Nat))),
      drive_download_bytes (.ok b :: rest) =
        (drive_download_bytes rest).map (fun bs => b ++ bs)) := by
  refine ⟨fun attempt => ⟨rfl, rfl⟩, fun e rest => rfl, fun b rest => ?_⟩
  show (match drive_download_bytes rest with
    | .error e => Except.error e
    | .ok bs => Except.ok (b ++ bs)) = _
  cases drive_download_bytes rest <;> rfl

-- -----------------------------
-- Claim C8: store naming scheme
-- -----------------------------

theorem isPrefixOf_self_append : ∀ (l r : List Char),
    List.isPrefixOf l (l ++ r) = true := by
  intro l r
  induction l with
  | nil => simp [List.isPrefixOf]
  | cons a l ih => simp [List.isPrefixOf, ih]

theorem hasWorkerTag_worker_name (wid : String) :
    hasWorkerTag (worker_heartbeat_doc_name wid).data = true := by
  have hd : (worker_heartbeat_doc_name wid).data =
      workerTag ++ (wid.data ++ (".json").data) := by
    simp [worker_heartbeat_doc_name, workerTag, String.data_append]
  rw [hd]
  have hstep : ∀ (c : Char) (rest : List Char),
      hasWorkerTag (c :: rest) =
        (List.isPrefixOf workerTag (c :: rest) || hasWorkerTag rest) :=
    fun c rest => rfl
  have hcons : workerTag ++ (wid.data ++ (".json").data) =
      '_' :: (('_' :: 'w' :: 'o' :: 'r' :: 'k' :: 'e' :: 'r' :: '_' :: '_' :: []) ++
        (wid.data ++ (".json").data)) := rfl
  rw [hcons, hstep]
  have hp : List.isPrefixOf workerTag
      ('_' :: (('_' :: 'w' :: 'o' :: 'r' :: 'k' :: 'e' :: 'r' :: '_' :: '_' :: []) ++
        (wid.data ++ (".json").data))) = true :=
    isPrefixOf_self_append workerTag (wid.data ++ (".json").data)
  rw [hp, Bool.true_or]

/-- C8: the object-store naming scheme — for every successfully processed
batch item, the input artifact's INBOX name is the job id, a double
underscore and the sanitized original name; its META state document is the
job id with a ".json" suffix; the batch manifest is the batch id with a
"__manifest.json" suffix; and a worker heartbeat document named with the
`__worker__` infix is found by the client's name-contains query. -/
theorem C8_store_naming_scheme :
    (∀ (it : UploadItem) (entry : ManifestEntry), processItem it = .ok entry →
      entry.job_id = make_job_id it.clock it.uuidHex (_safe_name it.name) ∧
      entry.inbox_name = entry.job_id ++ "__" ++ _safe_name it.name ∧
      entry.meta_filename = entry.job_id ++ ".json") ∧
    (∀ (bi ca fu : String) (items : List UploadItem),
      (batch_upload bi ca fu items).manifest_filename = bi ++ "__manifest.json") ∧
    (∀ (wid : String) (names : List String), worker_heartbeat_doc_name wid ∈ names →
      worker_heartbeat_doc_name wid ∈ drive_worker_heartbeat_query names) := by
  refine ⟨?_, fun bi ca fu items => rfl, ?_⟩
  · intro it entry h
    simp only [processItem] at h
    cases hu : it.uploadResult with
    | error e => rw [hu] at h; cases h
    | ok fid =>
      rw [hu] at h
      cases hm : it.metaResult with
      | error e => rw [hm] at h; cases h
      | ok u =>
        rw [hm] at h
        cases h
        exact ⟨rfl, rfl, rfl⟩
  · intro wid names hin
    exact List.mem_filter.mpr ⟨hin, hasWorkerTag_worker_name wid⟩

/-- C8 witness: the naming facts at a concrete item, batch and heartbeat
listing. -/
theorem C8_witness :
    processItem exOk1 = .ok exEntry1 ∧
    (exEntry1.job_id = make_job_id exOk1.clock exOk1.uuidHex (_safe_name exOk1.name) ∧
      exEntry1.inbox_name = exEntry1.job_id ++ "__" ++ _safe_name exOk1.name ∧
      exEntry1.meta_filename = exEntry1.job_id ++ ".json") ∧
    (batch_upload "b7" "t0" "t1" [exOk1]).manifest_filename = "b7" ++ "__manifest.json" ∧
    worker_heartbeat_doc_name "w1" ∈ ["plan.json", worker_heartbeat_doc_name "w1"] ∧
    worker_heartbeat_doc_name "w1" ∈
      drive_worker_heartbeat_query ["plan.json", worker_heartbeat_doc_name "w1"] :=
  ⟨by decide,
    C8_store_naming_scheme.1 exOk1 exEntry1 (by decide),
    C8_store_naming_scheme.2.1 "b7" "t0" "t1" [exOk1],
    by decide,
    C8_store_naming_scheme.2.2 "w1" ["plan.json", worker_heartbeat_doc_name "w1"]
      (by decide)⟩

/-- C9 witness: replaying the monitor's trace over a concrete store with a
job record and an INBOX file changes nothing, and a concrete issued op is a
read. -/
theorem C9_witness :
    (list_worker_heartbeats_ops "meta1" exHbFiles).foldl applyOp
        ⟨[("INBOX", "x.dxf")], ["j1"]⟩ = ⟨[("INBOX", "x.dxf")], ["j1"]⟩ ∧
    DriveOp.getFile "f1" ∈ list_worker_heartbeats_ops "meta1" exHbFiles ∧
    (DriveOp.getFile "f1").isRead :=
  ⟨(C9_monitor_is_read_only "meta1" exHbFiles ⟨[("INBOX", "x.dxf")], ["j1"]⟩).1,
    by decide,
    (C9_monitor_is_read_only "meta1" exHbFiles ⟨[("INBOX", "x.dxf")], ["j1"]⟩).2
      (DriveOp.getFile "f1") (by decide)⟩
